import Mathlib

/-!
Verification development for the "Come Grab a Bite" food-decision app
(src/src/App.tsx). The core logic — preference-to-tag derivation,
candidate filtering, query building, the history log and the screen flow
state machine — is embedded as executable Lean definitions. Numbers that
are JS floats in the source (richness, thresholds, display distances,
coordinates) are modelled as exact rationals.
-/

namespace ComeGrabABite

/-- `type Temp = "hot" | "cold"` -/
inductive Temp where
  | hot
  | cold
deriving DecidableEq, Repr

/-- `type Form = "soup" | "dry"` -/
inductive Form where
  | soup
  | dry
deriving DecidableEq, Repr

/-- `type Speed = "fast" | "sit"` -/
inductive Speed where
  | fast
  | sit
deriving DecidableEq, Repr

/-- `type Style = "light" | "rich"` -/
inductive Style where
  | light
  | rich
deriving DecidableEq, Repr

/-- `price: "budget" | "mid"` -/
inductive Price where
  | budget
  | mid
deriving DecidableEq, Repr

/-- `type Screen = "home" | "choose" | "state" | "recommend" | "energy" | "log"` -/
inductive Screen where
  | home
  | choose
  | state
  | recommend
  | energy
  | log
deriving DecidableEq, Repr

/-- `type Place` from App.tsx. -/
structure Place where
  id : String
  name : String
  type : Temp
  style : Style
  form : Form
  speed : Speed
  price : Price
deriving DecidableEq, Repr

/-- `mode` field of a log entry signature: "satisfied" | "stable" | "chaos". -/
inductive Mode where
  | satisfied
  | stable
  | chaos
deriving DecidableEq, Repr

/-- The optional `sig` payload of a `LogEntry`. -/
structure Sig where
  warmth : ℚ
  mode : Mode
  temp : Option Temp
  form : Option Form
  speed : Option Speed
  richness : ℚ
deriving DecidableEq, Repr

/-- `type LogEntry` from App.tsx. -/
structure LogEntry where
  id : String
  «at» : String
  tags : List String
  choiceText : String
  sig : Option Sig
deriving DecidableEq, Repr

/-- The eight static candidate records of `mockPlaces`. -/
def p1 : Place := ⟨"p1", "暖湯麵館", Temp.hot, Style.light, Form.soup, Speed.sit, Price.budget⟩

def p2 : Place := ⟨"p2", "炙燒丼飯", Temp.hot, Style.rich, Form.dry, Speed.fast, Price.mid⟩

def p3 : Place := ⟨"p3", "清爽沙拉碗", Temp.cold, Style.light, Form.dry, Speed.fast, Price.mid⟩

def p4 : Place := ⟨"p4", "麻辣鍋小攤", Temp.hot, Style.rich, Form.soup, Speed.sit, Price.mid⟩

def p5 : Place := ⟨"p5", "咖哩飯專門", Temp.hot, Style.rich, Form.dry, Speed.sit, Price.mid⟩

def p6 : Place := ⟨"p6", "便當快取", Temp.hot, Style.light, Form.dry, Speed.fast, Price.budget⟩

def p7 : Place := ⟨"p7", "日式烏龍", Temp.hot, Style.light, Form.soup, Speed.fast, Price.mid⟩

def p8 : Place := ⟨"p8", "冰涼麵食", Temp.cold, Style.light, Form.dry, Speed.fast, Price.budget⟩

/-- `const mockPlaces: Place[]` -/
def mockPlaces : List Place := [p1, p2, p3, p4, p5, p6, p7, p8]

/-- `function clamp(n, a, b) { return Math.min(b, Math.max(a, n)); }` -/
def clamp (n a b : ℚ) : ℚ := min b (max a n)

/-- `computeTags`: derives the style from richness (rich iff ≥ 0.55) and builds
the ordered tag list: temperature label, form label, style label, pace label. -/
def computeTags (temp : Option Temp) (form : Option Form) (richness : ℚ)
    (speed : Option Speed) : List String × Style :=
  let style : Style := if richness ≥ 0.55 then Style.rich else Style.light
  let t : List String :=
    (match temp with
     | some Temp.hot => ["熱食"]
     | some Temp.cold => ["冷食"]
     | none => []) ++
    (match form with
     | some Form.soup => ["湯的"]
     | some Form.dry => ["乾的"]
     | none => []) ++
    [if style = Style.rich then "重口" else "清爽"] ++
    (match speed with
     | some Speed.fast => ["快點"]
     | some Speed.sit => ["坐下來吃"]
     | none => [])
  (t, style)

/-- `function preferenceText(richness)` -/
def preferenceText (richness : ℚ) : String :=
  if richness < 0.4 then "清爽一點"
  else if richness > 0.6 then "重口一點"
  else "都可以"

/-- The `candidates` pipeline inside `filterPlaces`: four sequential filters
(temperature, form, pace — each skipped when unset — then style, always). -/
def candidatesFor (temp : Option Temp) (form : Option Form) (speed : Option Speed)
    (style : Style) : List Place :=
  ((((mockPlaces.filter (fun p => match temp with
      | some t => p.type == t
      | none => true)).filter (fun p => match form with
      | some f => p.form == f
      | none => true)).filter (fun p => match speed with
      | some sp => p.speed == sp
      | none => true)).filter (fun p => p.style == style))

/-- The `fallback` list inside `filterPlaces`: filtered only by temperature. -/
def fallbackFor (temp : Option Temp) : List Place :=
  mockPlaces.filter (fun p => match temp with
    | some t => p.type == t
    | none => true)

/-- The `.map((p, idx) => ({ ...p, distance: (idx + 1) * 0.4 km }))` step:
annotates each place with its synthetic display distance (in km), counting
positions from `i`. -/
def addDistancesFrom (i : Nat) : List Place → List (Place × ℚ)
  | [] => []
  | p :: rest => (p, ((i : ℚ) + 1) * 0.4) :: addDistancesFrom (i + 1) rest

/-- `function filterPlaces(args)`: candidates if non-empty else fallback,
truncated to 8, annotated with display distances. -/
def filterPlaces (temp : Option Temp) (form : Option Form) (speed : Option Speed)
    (style : Style) : List (Place × ℚ) :=
  addDistancesFrom 0
    ((if candidatesFor temp form speed style = [] then fallbackFor temp
      else candidatesFor temp form speed style).take 8)

/-- The keyword pool assembled by `buildMapsQuery` before the fallback check:
each flag combination contributes its keyword set, additively. -/
def rawPool (tags : List String) : List String :=
  (if tags.contains "重口" && tags.contains "湯的" && tags.contains "熱食" then
    ["麻辣鍋", "牛肉麵", "拉麵", "酸辣湯"] else []) ++
  (if tags.contains "清爽" && tags.contains "湯的" && tags.contains "熱食" then
    ["清湯麵", "粥", "味噌湯", "烏龍麵"] else []) ++
  (if tags.contains "重口" && tags.contains "乾的" && tags.contains "熱食" then
    ["燒肉飯", "咖哩飯", "丼飯", "炸雞"] else []) ++
  (if tags.contains "清爽" && tags.contains "乾的" then
    ["沙拉", "健康餐盒", "越南河粉", "涼麵"] else []) ++
  (if tags.contains "冷食" then ["沙拉", "涼麵", "生魚片"] else [])

/-- The pool used by `buildMapsQuery`: the raw pool, or the generic fallback
`["餐廳", "小吃", "便當", "麵"]` when no combination fired. -/
def keywordPool (tags : List String) : List String :=
  if rawPool tags = [] then ["餐廳", "小吃", "便當", "麵"] else rawPool tags

/-- `const pick = (arr) => arr[Math.floor(Math.random() * arr.length)]`,
with the random draw modelled as an arbitrary natural reduced mod the length. -/
def pick (arr : List String) (r : Nat) : String :=
  arr.getD (r % arr.length) ""

/-- `Array.from(new Set(...))`: JS Set iteration order keeps first occurrences. -/
def jsSetFrom (l : List String) : List String :=
  l.foldl (fun acc x => if acc.contains x then acc else acc ++ [x]) []

/-- `uniq.join(" ")` -/
def joinSpace : List String → String
  | [] => ""
  | [x] => x
  | x :: xs => x ++ " " ++ joinSpace xs

/-- `function buildMapsQuery(tags)`, with the three random outcomes made
explicit: `r1` drives the first pick, `second` models `Math.random() > 0.55`,
`r2` drives the second pick. -/
def buildMapsQuery (tags : List String) (r1 r2 : Nat) (second : Bool) : String :=
  let pool := keywordPool tags
  let a := pick pool r1
  let b := if second then pick pool r2 else ""
  let uniq := jsSetFrom ([a, b].filter (fun s => s != ""))
  joinSpace uniq

/-- `function buildMapsSearchUrl(lat, lng, query)` (URL-encoding not modelled). -/
def buildMapsSearchUrl (lat lng : ℚ) (query : String) : String :=
  "https://www.google.com/maps/search/" ++ query ++ "/@" ++ toString lat ++ ","
    ++ toString lng ++ ",15z"

/-- The session state held by the `App` component: active screen, choose step,
the four preference fields, the inline geolocation status text and the log. -/
structure AppState where
  screen : Screen
  chooseStep : Nat
  temp : Option Temp
  form : Option Form
  richness : ℚ
  speed : Option Speed
  geoStatus : String
  log : List LogEntry
deriving DecidableEq, Repr

/-- The initial `useState` values (with an empty persisted log). -/
def initState : AppState :=
  { screen := Screen.home
    chooseStep := 0
    temp := none
    form := none
    richness := 0.5
    speed := none
    geoStatus := ""
    log := [] }

/-- `setTemp` state setter. -/
def setTemp (t : Temp) (s : AppState) : AppState := { s with temp := some t }

/-- `setForm` state setter. -/
def setForm (f : Form) (s : AppState) : AppState := { s with form := some f }

/-- `setSpeed` state setter. -/
def setSpeed (sp : Speed) (s : AppState) : AppState := { s with speed := some sp }

/-- `setRichness` state setter. -/
def setRichness (r : ℚ) (s : AppState) : AppState := { s with richness := r }

/-- `function resetFlow()` (the press-timer bookkeeping is UI-only). -/
def resetFlow (s : AppState) : AppState :=
  { s with
    chooseStep := 0
    temp := none
    form := none
    richness := 0.5
    speed := none }

/-- `function startDecision() { resetFlow(); setScreen("choose"); }` -/
def startDecision (s : AppState) : AppState :=
  { resetFlow s with screen := Screen.choose }

/-- `const totalChooseSteps = 3` -/
def totalChooseSteps : Nat := 3

/-- `function nextChoose()` -/
def nextChoose (s : AppState) : AppState :=
  if s.chooseStep < totalChooseSteps - 1 then { s with chooseStep := s.chooseStep + 1 }
  else { s with screen := Screen.state }

/-- The `disabled` prop of the "next" button on each choose step:
`!temp` at step 0, `!form` at step 1, `!speed` at step 2. -/
def chooseNextDisabled (s : AppState) : Bool :=
  match s.chooseStep with
  | 0 => s.temp.isNone
  | 1 => s.form.isNone
  | _ => s.speed.isNone

/-- Pressing the "next" button: `PrimaryButton` ignores the click while
`disabled`, otherwise runs `nextChoose`. -/
def pressNext (s : AppState) : AppState :=
  if chooseNextDisabled s then s else nextChoose s

/-- The `LogEntry` literal built inside `saveEnergy` (the time-derived `id`
and `at` strings are passed in, since `Date.now`/`toISOString` are ambient). -/
def mkLogEntry (idStr atStr choiceText : String) (temp : Option Temp)
    (form : Option Form) (richness : ℚ) (speed : Option Speed) : LogEntry :=
  { id := idStr
    «at» := atStr
    tags := (computeTags temp form richness speed).1
    choiceText := choiceText
    sig := some { warmth := clamp (0.35 + richness * 0.65) 0 1
                  mode := Mode.satisfied
                  temp := temp
                  form := form
                  speed := speed
                  richness := richness } }

/-- `function saveEnergy(choiceText)`: `setLog((prev) => [entry, ...prev])`. -/
def saveEnergy (idStr atStr choiceText : String) (s : AppState) : AppState :=
  { s with log := mkLogEntry idStr atStr choiceText s.temp s.form s.richness s.speed :: s.log }

/-- The log screen's clear button: `onClick={() => setLog([])}`. -/
def clearLog (s : AppState) : AppState := { s with log := [] }

/-- The three observable outcomes of the geolocation request in
`openMapsNearby`: API unsupported, success with coordinates, or an error
callback carrying a numeric code (1 = permission denied). -/
inductive GeoOutcome where
  | unsupported
  | success (lat lng : ℚ)
  | failure (code : Nat)
deriving DecidableEq, Repr

/-- `async function openMapsNearby()`: builds the query from the current tags,
then — depending on the geolocation outcome — opens a URL and updates the
status text; only the success path records a `LogEntry` (via
`saveEnergy("（前往附近覓食）")`). Returns the settled state and the opened URL
(URL-encoding of the query is not modelled). -/
def openMapsNearby (r1 r2 : Nat) (second : Bool) (outcome : GeoOutcome)
    (idStr atStr : String) (s : AppState) : AppState × String :=
  let query := buildMapsQuery (computeTags s.temp s.form s.richness s.speed).1 r1 r2 second
  match outcome with
  | GeoOutcome.unsupported =>
    ({ s with geoStatus := "這個裝置不支援定位。你仍可手動在地圖搜尋。" },
     "https://www.google.com/maps/search/" ++ query)
  | GeoOutcome.success lat lng =>
    (saveEnergy idStr atStr "（前往附近覓食）" { s with geoStatus := "已準備好：" ++ query },
     buildMapsSearchUrl lat lng query)
  | GeoOutcome.failure code =>
    ({ s with geoStatus :=
        (if code = 1 then "你拒絕了定位權限。" else "定位失敗。") ++ " 你仍可手動在地圖搜尋。" },
     "https://www.google.com/maps/search/" ++ query)

/-- The initializer of `useLocalStorageLog`:
`raw ? JSON.parse(raw) : []` inside try/catch, where a parse failure is
caught and yields `[]`. The external store read and the JSON parser are
passed in as parameters. -/
def readInitialLog (stored : Option String)
    (parse : String → Except String (List LogEntry)) : List LogEntry :=
  match stored with
  | none => []
  | some raw =>
    match parse raw with
    | Except.ok entries => entries
    | Except.error _ => []

/-- The persistence effect of `useLocalStorageLog`:
`localStorage.setItem(...)` inside try/catch with the failure ignored; the
in-memory log after the effect, whatever the write's outcome. -/
def writeLog (write : List LogEntry → Except String Unit)
    (log : List LogEntry) : List LogEntry :=
  match write log with
  | Except.ok _ => log
  | Except.error _ => log

/-- A concrete session state sitting on the Recommend screen after the
hot/soup/fast choices with richness at its default. -/
def exampleRecommendState : AppState :=
  { screen := Screen.recommend
    chooseStep := 2
    temp := some Temp.hot
    form := some Form.soup
    richness := 0.5
    speed := some Speed.fast
    geoStatus := ""
    log := [] }

/-- The four intermediate states of the happy-path choose trace:
start, then hot / soup / fast with "next" pressed after each answer. -/
def traceS0 : AppState := startDecision initState

def traceS1 : AppState := pressNext (setTemp Temp.hot traceS0)

def traceS2 : AppState := pressNext (setForm Form.soup traceS1)

def traceS3 : AppState := pressNext (setSpeed Speed.fast traceS2)

/-- Spec-side decomposition of the tag list: the temperature label,
omitted when unset. -/
def tempLabel : Option Temp → List String
  | some Temp.hot => ["熱食"]
  | some Temp.cold => ["冷食"]
  | none => []

/-- Spec-side decomposition of the tag list: the form label, omitted when
unset. -/
def formLabel : Option Form → List String
  | some Form.soup => ["湯的"]
  | some Form.dry => ["乾的"]
  | none => []

/-- Spec-side decomposition of the tag list: the style label, always
present, rich iff richness ≥ 0.55. -/
def styleLabel (richness : ℚ) : String :=
  if richness ≥ 0.55 then "重口" else "清爽"

/-- Spec-side decomposition of the tag list: the pace label, omitted when
unset. -/
def speedLabel : Option Speed → List String
  | some Speed.fast => ["快點"]
  | some Speed.sit => ["坐下來吃"]
  | none => []

theorem addDistancesFrom_length (i : Nat) (l : List Place) :
    (addDistancesFrom i l).length = l.length := by
  induction l generalizing i with
  | nil => rfl
  | cons p rest ih => simp [addDistancesFrom, ih]

theorem addDistancesFrom_get_snd :
    ∀ (l : List Place) (i j : Nat) (h : j < (addDistancesFrom i l).length),
      ((addDistancesFrom i l).get ⟨j, h⟩).2 = ((i : ℚ) + (j : ℚ) + 1) * 0.4 := by
  intro l
  induction l with
  | nil => intro i j h; simp [addDistancesFrom] at h
  | cons p rest ih =>
    intro i j h
    cases j with
    | zero => simp [addDistancesFrom]
    | succ j =>
      have h' : j < (addDistancesFrom (i + 1) rest).length := by
        simp [addDistancesFrom] at h
        omega
      have hstep : ((addDistancesFrom i (p :: rest)).get ⟨j + 1, h⟩).2
          = ((addDistancesFrom (i + 1) rest).get ⟨j, h'⟩).2 := rfl
      rw [hstep, ih (i + 1) j h']
      push_cast
      ring

theorem mem_addDistancesFrom :
    ∀ (l : List Place) (i : Nat) (x : Place × ℚ), x ∈ addDistancesFrom i l → x.1 ∈ l := by
  intro l
  induction l with
  | nil => intro i x hx; simp [addDistancesFrom] at hx
  | cons p rest ih =>
    intro i x hx
    rcases (List.mem_cons).mp hx with hx | hx
    · subst hx; simp
    · exact List.mem_cons_of_mem _ (ih (i + 1) x hx)

theorem fallbackFor_ne_nil : ∀ temp : Option Temp, fallbackFor temp ≠ [] := by
  intro temp
  rcases temp with _ | t
  · decide
  · cases t <;> decide

/-- C3: for every richness value, `computeTags` derives style rich iff
richness ≥ 0.55 (so the boundary 0.55 itself is rich); the style label is
always present in the tag list, and the list is exactly the ordered
concatenation: temperature label (omitted if unset), form label (omitted if
unset), style label, pace label (omitted if unset). -/
theorem computeTags_style_and_order :
    ∀ (temp : Option Temp) (form : Option Form) (r : ℚ) (speed : Option Speed),
      ((computeTags temp form r speed).2 = Style.rich ↔ 0.55 ≤ r) ∧
      ((if (computeTags temp form r speed).2 = Style.rich then "重口" else "清爽")
        ∈ (computeTags temp form r speed).1) ∧
      (computeTags temp form r speed).1
        = tempLabel temp ++ formLabel form ++ [styleLabel r] ++ speedLabel speed := by
  intro temp form r speed
  rcases temp with _ | a <;> rcases form with _ | b <;> rcases speed with _ | c <;>
    (try cases a) <;> (try cases b) <;> (try cases c) <;>
    by_cases h : (0.55 : ℚ) ≤ r <;>
    simp [computeTags, tempLabel, formLabel, styleLabel, speedLabel, ge_iff_le, h]

/-- C5: the history log is newest-first — `saveEnergy` prepends its entry, so
appending A then B yields [B, A, ...previous], and the clear action yields the
empty sequence. -/
theorem log_append_newest_first :
    ∀ (s : AppState) (id1 at1 c1 id2 at2 c2 : String),
      (saveEnergy id2 at2 c2 (saveEnergy id1 at1 c1 s)).log
        = mkLogEntry id2 at2 c2 s.temp s.form s.richness s.speed
          :: mkLogEntry id1 at1 c1 s.temp s.form s.richness s.speed :: s.log ∧
      (clearLog (saveEnergy id2 at2 c2 (saveEnergy id1 at1 c1 s))).log = [] := by
  intro s id1 at1 c1 id2 at2 c2
  exact ⟨rfl, rfl⟩

/-- C8: `preferenceText` returns the "leaning light" string exactly when
richness < 0.4, the "leaning rich" string exactly when richness > 0.6, and
the neutral string exactly on the closed band [0.4, 0.6]. -/
theorem preferenceText_thresholds :
    ∀ r : ℚ,
      (preferenceText r = "清爽一點" ↔ r < 0.4) ∧
      (preferenceText r = "重口一點" ↔ 0.6 < r) ∧
      (preferenceText r = "都可以" ↔ 0.4 ≤ r ∧ r ≤ 0.6) := by
  intro r
  unfold preferenceText
  split_ifs with h1 h2 <;>
    refine ⟨?_, ?_, ?_⟩ <;> constructor <;> intro hc <;>
    first
      | rfl
      | linarith
      | (constructor <;> linarith)
      | (exfalso; revert hc; decide)

/-- C9: reading the persisted log never raises — missing or unparseable
stored data initializes the in-memory log to the empty sequence — and a
failing write is ignored, leaving the in-memory log unchanged and usable. -/
theorem storage_errors_degrade_gracefully :
    (∀ parse, readInitialLog none parse = []) ∧
    (∀ raw parse msg, parse raw = Except.error msg → readInitialLog (some raw) parse = []) ∧
    (∀ write log, writeLog write log = log) := by
  refine ⟨fun parse => rfl, ?_, ?_⟩
  · intro raw parse msg h
    simp [readInitialLog, h]
  · intro write log
    unfold writeLog
    cases write log <;> rfl

theorem storage_errors_degrade_gracefully_witness :
    readInitialLog (some "oops") (fun _ => Except.error "malformed") = [] :=
  storage_errors_degrade_gracefully.2.1 "oops" (fun _ => Except.error "malformed")
    "malformed" rfl

/-- C10: when geolocation is unsupported or the request fails, the external
map action leaves the history log unchanged while still opening a
coordinate-less map search URL; only the success path appends a LogEntry
(with the fixed placeholder description). -/
theorem openMapsNearby_log_frame :
    ∀ (r1 r2 : Nat) (second : Bool) (idStr atStr : String) (s : AppState),
      ((openMapsNearby r1 r2 second GeoOutcome.unsupported idStr atStr s).1.log = s.log) ∧
      (∀ code, (openMapsNearby r1 r2 second (GeoOutcome.failure code) idStr atStr s).1.log
        = s.log) ∧
      (∀ lat lng, (openMapsNearby r1 r2 second (GeoOutcome.success lat lng) idStr atStr s).1.log
        = mkLogEntry idStr atStr "（前往附近覓食）" s.temp s.form s.richness s.speed :: s.log) ∧
      ((openMapsNearby r1 r2 second GeoOutcome.unsupported idStr atStr s).2
        = "https://www.google.com/maps/search/"
          ++ buildMapsQuery (computeTags s.temp s.form s.richness s.speed).1 r1 r2 second) ∧
      (∀ code, (openMapsNearby r1 r2 second (GeoOutcome.failure code) idStr atStr s).2
        = "https://www.google.com/maps/search/"
          ++ buildMapsQuery (computeTags s.temp s.form s.richness s.speed).1 r1 r2 second) := by
  intro r1 r2 second idStr atStr s
  exact ⟨rfl, fun _ => rfl, fun _ _ => rfl, rfl, fun _ => rfl⟩

/-- C1 counterexample: at a concrete Recommend-screen state, the external map
action with a successful geolocation outcome appends a LogEntry but leaves
the screen on Recommend — it does not transition to the Saved (energy)
screen, refuting the claimed Recommend → Saved transition. -/
theorem mapAction_stays_on_recommend :
    (openMapsNearby 0 0 false (GeoOutcome.success 25 121) "e1" "t1"
      exampleRecommendState).1.screen = Screen.recommend ∧
    Screen.recommend ≠ Screen.energy ∧
    (openMapsNearby 0 0 false (GeoOutcome.success 25 121) "e1" "t1"
      exampleRecommendState).1.log ≠ [] := by
  decide

/-- C1 amended: from the Recommend screen, confirming "go out" via the
external map action (i.e. its geolocation success path) appends a LogEntry
with the fixed placeholder description to the history log, but the flow stays
on the Recommend screen rather than transitioning to the Saved state. -/
theorem mapAction_appends_placeholder_entry :
    ∀ (r1 r2 : Nat) (second : Bool) (lat lng : ℚ) (idStr atStr : String) (s : AppState),
      s.screen = Screen.recommend →
      ((openMapsNearby r1 r2 second (GeoOutcome.success lat lng) idStr atStr s).1.log
        = mkLogEntry idStr atStr "（前往附近覓食）" s.temp s.form s.richness s.speed :: s.log) ∧
      (openMapsNearby r1 r2 second (GeoOutcome.success lat lng) idStr atStr s).1.screen
        = Screen.recommend := by
  intro r1 r2 second lat lng idStr atStr s hs
  exact ⟨rfl, hs⟩

theorem mapAction_appends_placeholder_entry_witness :
    exampleRecommendState.screen = Screen.recommend ∧
    ((openMapsNearby 0 0 false (GeoOutcome.success 25 121) "e2" "t2"
        exampleRecommendState).1.log
      = [mkLogEntry "e2" "t2" "（前往附近覓食）" (some Temp.hot) (some Form.soup) 0.5
          (some Speed.fast)]) ∧
    (openMapsNearby 0 0 false (GeoOutcome.success 25 121) "e2" "t2"
      exampleRecommendState).1.screen = Screen.recommend :=
  ⟨rfl,
   (mapAction_appends_placeholder_entry 0 0 false 25 121 "e2" "t2"
     exampleRecommendState rfl).1,
   (mapAction_appends_placeholder_entry 0 0 false 25 121 "e2" "t2"
     exampleRecommendState rfl).2⟩

/-- C6: in the Choose flow, "next" is inert at step 0 while temperature is
unset, at step 1 while form is unset, and at step 2 while pace is unset;
richness never gates the button; and the happy-path trace
hot → soup → fast with default richness 0.5 reaches the Result screen with
derived tags exactly [熱食, 湯的, 清爽, 快點] (0.5 < 0.55 gives the light
style label). -/
theorem choose_flow_gating_and_trace :
    (∀ s : AppState, s.chooseStep = 0 → s.temp = none → pressNext s = s) ∧
    (∀ s : AppState, s.chooseStep = 1 → s.form = none → pressNext s = s) ∧
    (∀ s : AppState, s.chooseStep = 2 → s.speed = none → pressNext s = s) ∧
    (∀ (s : AppState) (r : ℚ), chooseNextDisabled (setRichness r s) = chooseNextDisabled s) ∧
    (traceS0.screen = Screen.choose ∧ traceS0.chooseStep = 0 ∧ traceS0.richness = 0.5 ∧
     traceS1.screen = Screen.choose ∧ traceS1.chooseStep = 1 ∧
     traceS2.screen = Screen.choose ∧ traceS2.chooseStep = 2 ∧
     traceS3.richness = 0.5 ∧ traceS3.screen = Screen.state ∧
     (computeTags traceS3.temp traceS3.form traceS3.richness traceS3.speed).1
       = ["熱食", "湯的", "清爽", "快點"]) := by
  refine ⟨?_, ?_, ?_, fun s r => rfl, ?_⟩
  · intro s h0 ht
    simp [pressNext, chooseNextDisabled, h0, ht]
  · intro s h1 hf
    simp [pressNext, chooseNextDisabled, h1, hf]
  · intro s h2 hsp
    simp [pressNext, chooseNextDisabled, h2, hsp]
  · have ht3 : traceS3 = { screen := Screen.state
                           chooseStep := 2
                           temp := some Temp.hot
                           form := some Form.soup
                           richness := 0.5
                           speed := some Speed.fast
                           geoStatus := ""
                           log := [] } := rfl
    refine ⟨rfl, rfl, rfl, rfl, rfl, rfl, rfl, rfl, rfl, ?_⟩
    rw [ht3]
    have hlt : ¬ ((0.5 : ℚ) ≥ 0.55) := by norm_num
    simp [computeTags, hlt]

/-- C2: `filterPlaces` returns at most 8 entries, the entry at 0-based
position j always carries display distance (j + 1) × 0.4 km (a function of
position only), and whenever the four-predicate filtering is non-empty the
result is exactly that filtering, truncated to 8 and annotated. -/
theorem filterPlaces_shape :
    ∀ (temp : Option Temp) (form : Option Form) (speed : Option Speed) (style : Style),
      (filterPlaces temp form speed style).length ≤ 8 ∧
      (∀ (j : Nat) (h : j < (filterPlaces temp form speed style).length),
        ((filterPlaces temp form speed style).get ⟨j, h⟩).2 = (((0 : Nat) : ℚ) + (j : ℚ) + 1) * 0.4) ∧
      (candidatesFor temp form speed style ≠ [] →
        filterPlaces temp form speed style
          = addDistancesFrom 0 ((candidatesFor temp form speed style).take 8)) := by
  intro temp form speed style
  refine ⟨?_, ?_, ?_⟩
  · unfold filterPlaces
    rw [addDistancesFrom_length, List.length_take]
    exact Nat.min_le_left 8 _
  · intro j h
    exact addDistancesFrom_get_snd _ 0 j h
  · intro hne
    unfold filterPlaces
    rw [if_neg hne]

theorem filterPlaces_shape_witness :
    candidatesFor (some Temp.hot) (some Form.soup) (some Speed.sit) Style.rich ≠ [] ∧
    filterPlaces (some Temp.hot) (some Form.soup) (some Speed.sit) Style.rich
      = addDistancesFrom 0
          ((candidatesFor (some Temp.hot) (some Form.soup) (some Speed.sit) Style.rich).take 8) ∧
    0 < (filterPlaces (some Temp.hot) (some Form.soup) (some Speed.sit) Style.rich).length ∧
    ((filterPlaces (some Temp.hot) (some Form.soup) (some Speed.sit) Style.rich).get
        ⟨0, by decide⟩).2 = (((0 : Nat) : ℚ) + ((0 : Nat) : ℚ) + 1) * 0.4 :=
  ⟨by decide,
   (filterPlaces_shape (some Temp.hot) (some Form.soup) (some Speed.sit) Style.rich).2.2
     (by decide),
   by decide,
   (filterPlaces_shape (some Temp.hot) (some Form.soup) (some Speed.sit) Style.rich).2.1
     0 (by decide)⟩

/-- C4: whenever the full four-predicate filtering yields zero candidates,
`filterPlaces` still returns a non-empty result, and every returned entry is
drawn from the candidate set and matches the requested temperature whenever
one is set (the full set is used when temperature is unset); form, pace and
style play no role in the fallback. -/
theorem filterPlaces_fallback :
    ∀ (temp : Option Temp) (form : Option Form) (speed : Option Speed) (style : Style),
      candidatesFor temp form speed style = [] →
      filterPlaces temp form speed style ≠ [] ∧
      ∀ x ∈ filterPlaces temp form speed style,
        x.1 ∈ mockPlaces ∧ ∀ t, temp = some t → x.1.type = t := by
  intro temp form speed style hempty
  constructor
  · unfold filterPlaces
    rw [if_pos hempty]
    intro hnil
    have hlen := congrArg List.length hnil
    rw [addDistancesFrom_length, List.length_take] at hlen
    simp only [List.length_nil] at hlen
    rcases Nat.min_eq_zero_iff.mp hlen with h8 | hl
    · exact absurd h8 (by decide)
    · exact (fallbackFor_ne_nil temp) (List.length_eq_zero.mp hl)
  · intro x hx
    unfold filterPlaces at hx
    rw [if_pos hempty] at hx
    have hx1 : x.1 ∈ (fallbackFor temp).take 8 := mem_addDistancesFrom _ _ _ hx
    have hx2 : x.1 ∈ fallbackFor temp := List.take_subset _ _ hx1
    unfold fallbackFor at hx2
    rw [List.mem_filter] at hx2
    refine ⟨hx2.1, ?_⟩
    intro t ht
    have hpred := hx2.2
    rw [ht] at hpred
    simpa using hpred

theorem filterPlaces_fallback_witness :
    candidatesFor (some Temp.cold) (some Form.soup) (some Speed.fast) Style.light = [] ∧
    filterPlaces (some Temp.cold) (some Form.soup) (some Speed.fast) Style.light ≠ [] ∧
    ((filterPlaces (some Temp.cold) (some Form.soup) (some Speed.fast) Style.light).get
        ⟨0, by decide⟩).1.type = Temp.cold := by
  have h := filterPlaces_fallback (some Temp.cold) (some Form.soup) (some Speed.fast)
    Style.light (by decide)
  refine ⟨by decide, h.1, ?_⟩
  have hm := List.get_mem (filterPlaces (some Temp.cold) (some Form.soup) (some Speed.fast)
    Style.light) 0 (by decide)
  exact (h.2 _ hm).2 Temp.cold rfl

theorem keywordPool_ne_nil (tags : List String) : keywordPool tags ≠ [] := by
  unfold keywordPool
  split
  · simp
  · next h => exact h

theorem mem_rawPool_ne_empty : ∀ (tags : List String) (k : String),
    k ∈ rawPool tags → k ≠ "" := by
  intro tags k hk
  unfold rawPool at hk
  simp only [List.mem_append] at hk
  rcases hk with ((((hk | hk) | hk) | hk) | hk) <;>
    (split at hk
     · fin_cases hk <;> decide
     · simp at hk)

theorem mem_keywordPool_ne_empty : ∀ (tags : List String) (k : String),
    k ∈ keywordPool tags → k ≠ "" := by
  intro tags k hk
  unfold keywordPool at hk
  split at hk
  · fin_cases hk <;> decide
  · exact mem_rawPool_ne_empty tags k hk

theorem pick_mem (arr : List String) (r : Nat) (h : arr ≠ []) : pick arr r ∈ arr := by
  unfold pick
  have hlen : 0 < arr.length := List.length_pos.mpr h
  have hlt : r % arr.length < arr.length := Nat.mod_lt _ hlen
  rw [List.getD_eq_getElem _ _ hlt]
  exact List.getElem_mem hlt

/-- C7: for every tag list and every outcome of the random draws,
`buildMapsQuery` returns a non-empty string that is either a single keyword
or two distinct keywords joined by one space, all drawn from the pool the
active flag combinations determine (the generic fallback pool when none
fires). -/
theorem buildMapsQuery_shape :
    ∀ (tags : List String) (r1 r2 : Nat) (second : Bool),
      buildMapsQuery tags r1 r2 second ≠ "" ∧
      ((∃ k ∈ keywordPool tags, buildMapsQuery tags r1 r2 second = k) ∨
       (∃ k1 ∈ keywordPool tags, ∃ k2 ∈ keywordPool tags, k1 ≠ k2 ∧
         buildMapsQuery tags r1 r2 second = k1 ++ " " ++ k2)) := by
  intro tags r1 r2 second
  have hpool : keywordPool tags ≠ [] := keywordPool_ne_nil tags
  have ha : pick (keywordPool tags) r1 ∈ keywordPool tags := pick_mem _ _ hpool
  have ha0 : pick (keywordPool tags) r1 ≠ "" := mem_keywordPool_ne_empty tags _ ha
  have ha0b : (pick (keywordPool tags) r1 != "") = true := bne_iff_ne.mpr ha0
  cases second with
  | false =>
    have hq : buildMapsQuery tags r1 r2 false = pick (keywordPool tags) r1 := by
      unfold buildMapsQuery
      simp [List.filter, ha0b, jsSetFrom, joinSpace]
    exact ⟨hq ▸ ha0, Or.inl ⟨_, ha, hq⟩⟩
  | true =>
    have hb : pick (keywordPool tags) r2 ∈ keywordPool tags := pick_mem _ _ hpool
    have hb0 : pick (keywordPool tags) r2 ≠ "" := mem_keywordPool_ne_empty tags _ hb
    have hb0b : (pick (keywordPool tags) r2 != "") = true := bne_iff_ne.mpr hb0
    by_cases hab : pick (keywordPool tags) r1 = pick (keywordPool tags) r2
    · have hq : buildMapsQuery tags r1 r2 true = pick (keywordPool tags) r1 := by
        unfold buildMapsQuery
        simp [List.filter, ha0b, hb0b, jsSetFrom, joinSpace, hab]
      exact ⟨hq ▸ ha0, Or.inl ⟨_, ha, hq⟩⟩
    · have hab2 : pick (keywordPool tags) r2 ≠ pick (keywordPool tags) r1 :=
        fun h => hab h.symm
      have hq : buildMapsQuery tags r1 r2 true
          = pick (keywordPool tags) r1 ++ " " ++ pick (keywordPool tags) r2 := by
        unfold buildMapsQuery
        simp [List.filter, ha0b, hb0b, jsSetFrom, joinSpace, hab2]
      refine ⟨?_, Or.inr ⟨_, ha, _, hb, hab, hq⟩⟩
      rw [hq]
      intro h0
      have hlen := congrArg String.length h0
      rw [String.length_append, String.length_append] at hlen
      have hsp : (" " : String).length = 1 := rfl
      rw [hsp] at hlen
      simp at hlen

theorem buildMapsQuery_shape_witness :
    buildMapsQuery ["熱食", "湯的", "清爽", "快點"] 0 1 true ≠ "" ∧
    ((∃ k ∈ keywordPool ["熱食", "湯的", "清爽", "快點"],
        buildMapsQuery ["熱食", "湯的", "清爽", "快點"] 0 1 true = k) ∨
     (∃ k1 ∈ keywordPool ["熱食", "湯的", "清爽", "快點"],
        ∃ k2 ∈ keywordPool ["熱食", "湯的", "清爽", "快點"], k1 ≠ k2 ∧
          buildMapsQuery ["熱食", "湯的", "清爽", "快點"] 0 1 true = k1 ++ " " ++ k2)) :=
  buildMapsQuery_shape ["熱食", "湯的", "清爽", "快點"] 0 1 true

theorem choose_flow_gating_and_trace_witness :
    pressNext (startDecision initState) = startDecision initState ∧
    pressNext { initState with chooseStep := 1 } = { initState with chooseStep := 1 } ∧
    pressNext { initState with chooseStep := 2 } = { initState with chooseStep := 2 } ∧
    traceS3.screen = Screen.state :=
  ⟨choose_flow_gating_and_trace.1 (startDecision initState) rfl rfl,
   choose_flow_gating_and_trace.2.1 { initState with chooseStep := 1 } rfl rfl,
   choose_flow_gating_and_trace.2.2.1 { initState with chooseStep := 2 } rfl rfl,
   choose_flow_gating_and_trace.2.2.2.2.2.2.2.2.2.2.2.2.1⟩

end ComeGrabABite
